import Mathlib

/-!
Shallow embedding of the PhishGuard safety-check core
(src/app/service/checker.py and src/app/service/phone.py).

Network and browser I/O is modelled by explicit environment functions
(probe outcomes, node outcomes, browser-wait outcomes) passed as
parameters; every other construct is translated directly from the
Python source.  Python str.isdigit and re IGNORECASE classes are
modelled over the ASCII range.
-/

/-- Outcome of one requests.head-style probe of a URL: a response with
its status code and final (redirect-resolved) location, a
requests.Timeout, or any other requests.RequestException. -/
inductive ProbeResult where
  | response (status : Nat) (finalUrl : String)
  | timeout
  | connError
deriving DecidableEq

/-- The two failure kinds crossing the core boundary
(app/errors.py: InvalidArgumentError, OperationFailedError). -/
inductive Failure where
  | invalidArgument
  | operationFailed
deriving DecidableEq

/-- Regular-expression syntax sufficient for the URL grammar regex in
SafeChecker._is_url (checker.py lines 46-52).  Character classes are
predicates; nlook is a negative lookahead. -/
inductive Re where
  | eps
  | cls (p : Char → Bool)
  | seq (a b : Re)
  | alt (a b : Re)
  | opt (a : Re)
  | star (a : Re)
  | plus (a : Re)
  | rep (a : Re) (lo hi : Nat)
  | nlook (a : Re)

/-- Fuel-bounded backtracking matcher with continuation k; returns true
iff some match of re against a prefix of cs leaves a suffix accepted
by k.  The fuel only bounds recursion depth; is_url supplies enough
fuel for any path through its fixed pattern. -/
def reMatch : Nat → Re → List Char → (List Char → Bool) → Bool
  | 0, _, _, _ => false
  | _ + 1, .eps, cs, k => k cs
  | _ + 1, .cls p, cs, k =>
    match cs with
    | [] => false
    | c :: rest => p c && k rest
  | fuel + 1, .seq a b, cs, k => reMatch fuel a cs (fun rest => reMatch fuel b rest k)
  | fuel + 1, .alt a b, cs, k => reMatch fuel a cs k || reMatch fuel b cs k
  | fuel + 1, .opt a, cs, k => reMatch fuel a cs k || k cs
  | fuel + 1, .star a, cs, k =>
    reMatch fuel a cs (fun rest => reMatch fuel (.star a) rest k) || k cs
  | fuel + 1, .plus a, cs, k =>
    reMatch fuel a cs (fun rest => reMatch fuel (.star a) rest k)
  | fuel + 1, .rep a lo hi, cs, k =>
    match lo with
    | m + 1 => reMatch fuel a cs (fun rest => reMatch fuel (.rep a m (hi - 1)) rest k)
    | 0 =>
      match hi with
      | 0 => k cs
      | h + 1 => reMatch fuel a cs (fun rest => reMatch fuel (.rep a 0 h) rest k) || k cs
  | fuel + 1, .nlook a, cs, k => !(reMatch fuel a cs (fun _ => true)) && k cs

/-- [A-Z0-9] under re.IGNORECASE (ASCII model). -/
def alnumCls : Char → Bool := fun c => c.isAlpha || c.isDigit

/-- [A-Z0-9-] under re.IGNORECASE (ASCII model). -/
def alnumDashCls : Char → Bool := fun c => c.isAlpha || c.isDigit || c = '-'

/-- [A-F0-9] under re.IGNORECASE (ASCII model). -/
def hexCls : Char → Bool :=
  fun c => c.isDigit || ('A' ≤ c && c ≤ 'F') || ('a' ≤ c && c ≤ 'f')

/-- [A-F0-9:] under re.IGNORECASE (ASCII model). -/
def hexColonCls : Char → Bool := fun c => hexCls c || c = ':'

/-- A literal character under re.IGNORECASE. -/
def lit1 (c : Char) : Re := .cls (fun d => d.toLower = c)

/-- A literal string under re.IGNORECASE. -/
def litStr (s : String) : Re := (s.data.map lit1).foldr .seq .eps

/-- (?:http(s)?://)? -/
def schemeRe : Re := .opt (.seq (litStr "http") (.seq (.opt (lit1 's')) (litStr "://")))

/-- d{1,3}[.]d{1,3}[.]d{1,3}[.]d{1,3} (the IPv4 part of the lookahead). -/
def ipv4Re : Re :=
  .seq (.rep (.cls Char.isDigit) 1 3) (.seq (.cls (· = '.'))
    (.seq (.rep (.cls Char.isDigit) 1 3) (.seq (.cls (· = '.'))
      (.seq (.rep (.cls Char.isDigit) 1 3) (.seq (.cls (· = '.'))
        (.rep (.cls Char.isDigit) 1 3))))))

/-- The IPv6-shaped part of the lookahead: an optional opening bracket,
hex digits, a colon, hex-or-colon characters, an optional closing
bracket. -/
def ipv6Re : Re :=
  .seq (.opt (.cls (· = '['))) (.seq (.star (.cls hexCls))
    (.seq (.cls (· = ':')) (.seq (.plus (.cls hexColonCls)) (.opt (.cls (· = ']'))))))

/-- The IP-address alternative that is forbidden by negative lookahead. -/
def ipRe : Re := .alt ipv4Re ipv6Re

/-- [A-Z0-9](?:[A-Z0-9-]{0,61}[A-Z0-9])?[.] — one DNS label and its dot. -/
def labelRe : Re :=
  .seq (.cls alnumCls)
    (.seq (.opt (.seq (.rep (.cls alnumDashCls) 0 61) (.cls alnumCls))) (.cls (· = '.')))

/-- (?:[A-Z]{2,6}[.]?|[A-Z0-9-]{2,}[.]?) — the final domain part. -/
def tldRe : Re :=
  .alt (.seq (.rep (.cls Char.isAlpha) 2 6) (.opt (.cls (· = '.'))))
    (.seq (.cls alnumDashCls) (.seq (.cls alnumDashCls)
      (.seq (.star (.cls alnumDashCls)) (.opt (.cls (· = '.'))))))

/-- (?:label)+tld — the domain alternative. -/
def domainRe : Re := .seq (.plus labelRe) tldRe

/-- (?:(?!ip)domain|localhost) — the host group. -/
def hostRe : Re := .alt (.seq (.nlook ipRe) domainRe) (litStr "localhost")

/-- (?::d+)? — the optional port. -/
def portRe : Re := .opt (.seq (.cls (· = ':')) (.plus (.cls Char.isDigit)))

/-- The trailing (?:/?|[/?]S+) group, where S is any non-whitespace. -/
def tailRe : Re :=
  .alt (.opt (.cls (· = '/')))
    (.seq (.cls (fun c => c = '/' || c = '?')) (.plus (.cls (fun c => !c.isWhitespace))))

/-- The whole anchored pattern of SafeChecker._is_url. -/
def urlRe : Re := .seq schemeRe (.seq hostRe (.seq portRe tailRe))

/-- SafeChecker._is_url (checker.py lines 44-56): anchored match of the
URL grammar regex; the continuation requires the match to reach the
end of the string, modelling the final anchor. -/
def is_url (s : String) : Bool :=
  reMatch (200 * (s.length + 2)) urlRe s.data (fun cs => cs.isEmpty)

/-- Python str.strip(): drop leading and trailing whitespace. -/
def pyStrip (s : String) : String :=
  String.mk (((s.data.dropWhile Char.isWhitespace).reverse.dropWhile Char.isWhitespace).reverse)

/-- Python str.replace(c, ""): remove every occurrence of the character c. -/
def removeAll (c : Char) (s : String) : String :=
  String.mk (s.data.filter (fun d => d != c))

/-- SafeChecker._normalize_phone_number (checker.py lines 166-174):
strip, require every character to be a digit, hyphen or space (else
InvalidArgumentError), then remove hyphens and spaces. -/
def normalize_phone_number (s : String) : Except Failure String :=
  if (pyStrip s).data.all (fun c => c.isDigit || c == '-' || c == ' ') then
    .ok (removeAll ' ' (removeAll '-' (pyStrip s)))
  else
    .error .invalidArgument

/-- Python str.startswith on character lists. -/
def listIsPrefix : List Char → List Char → Bool
  | [], _ => true
  | _ :: _, [] => false
  | p :: ps, c :: cs => (p = c) && listIsPrefix ps cs

/-- SafeChecker._ensure_scheme (checker.py lines 58-62). -/
def ensure_scheme (url scheme : String) : String :=
  if listIsPrefix (scheme ++ "://").data url.data then url
  else scheme ++ "://" ++ url

/-- Internal preprocessing errors of check_url_safety: URLNotFoundError,
URLTimeoutError, InvalidSchemeError, InvalidArgumentError (grammar
failure), and an uncaught requests.RequestException from
_expand_short_url. -/
inductive UrlPreErr where
  | urlNotFound
  | urlTimeout
  | invalidScheme
  | invalidArgument
  | requestError
deriving DecidableEq

/-- SafeChecker._get_url_with_scheme (checker.py lines 64-84): probe the
https variant; a response adopts https, a timeout raises
URLTimeoutError, any other request failure falls through to the http
variant; if that also fails, raise InvalidSchemeError. -/
def get_url_with_scheme (probe : String → ProbeResult) (url : String) :
    Except UrlPreErr String :=
  match probe (ensure_scheme url "https") with
  | .response _ _ => .ok (ensure_scheme url "https")
  | .timeout => .error .urlTimeout
  | .connError =>
    match probe (ensure_scheme url "http") with
    | .response _ _ => .ok (ensure_scheme url "http")
    | .timeout => .error .urlTimeout
    | .connError => .error .invalidScheme

/-- SafeChecker._expand_short_url (checker.py lines 86-98): probe the
scheme-qualified URL; timeout raises URLTimeoutError, any other request
failure propagates uncaught, a 404 raises URLNotFoundError, a 301/302
replaces the subject with the resolved location, anything else leaves
it unchanged. -/
def expand_short_url (probe : String → ProbeResult) (url : String) :
    Except UrlPreErr String :=
  match probe url with
  | .timeout => .error .urlTimeout
  | .connError => .error .requestError
  | .response status finalUrl =>
    if status ∈ [404] then .error .urlNotFound
    else if status ∈ [301, 302] then .ok finalUrl
    else .ok url

/-- SafeChecker._preprocess_url (checker.py lines 100-110). -/
def preprocess_url (probe : String → ProbeResult) (input : String) :
    Except UrlPreErr String :=
  if is_url (pyStrip input) = true then
    match get_url_with_scheme probe (pyStrip input) with
    | .ok u => expand_short_url probe u
    | .error e => .error e
  else
    .error .invalidArgument

/-- Outcome of one checker node's is_safe call: a boolean verdict, or a
raised exception. -/
inductive NodeOutcome where
  | verdict (b : Bool)
  | raised
deriving DecidableEq

/-- The three registered checker nodes of one subject type, in fixed
registry order (checker.py lines 28-37), as outcome functions. -/
structure Nodes where
  node1 : String → NodeOutcome
  node2 : String → NodeOutcome
  node3 : String → NodeOutcome

/-- The override lists of SafeChecker.__init__ (checker.py lines 39-42). -/
structure SafeCheckerState where
  phone_whitelist : List String
  phone_blacklist : List String
  url_whitelist : List String
  url_blacklist : List String

/-- The lists loaded at startup (checker.py lines 39-42). -/
def initState : SafeCheckerState :=
  { phone_whitelist := ["01092563688"]
    phone_blacklist := ["01082539451"]
    url_whitelist := ["https://sds.co.kr"]
    url_blacklist := ["http://r3born.cc"] }

/-- The three per-node report lines of check_url_safety (checker.py
lines 153-158), joined with newlines. -/
def url_node_report (b1 b2 b3 : Bool) : String :=
  "- Node_1(PhishtankURLSafeChecker): " ++ (if b1 then "ok" else "suspicious") ++
  "\n- Node_2(WhoXYURLSafeChecker): " ++ (if b2 then "ok" else "suspicious") ++
  "\n- Node_3(KISAURLSafeChecker): " ++ (if b3 then "ok" else "suspicious")

/-- The three per-node report lines of check_phone_safety (checker.py
lines 218-223), joined with newlines. -/
def phone_node_report (b1 b2 b3 : Bool) : String :=
  "- Node_1(OneOneFourPhoneSafeChecker): " ++ (if b1 then "ok" else "suspicious") ++
  "\n- Node_2(TheCallPhoneSafeChecker): " ++ (if b2 then "ok" else "suspicious") ++
  "\n- Node_3(MissedCallPhoneSafeChecker): " ++ (if b3 then "ok" else "suspicious")

/-- SafeChecker.check_url_safety (checker.py lines 112-164).  Inaccessible
outcomes of preprocessing become the terminal safe result; any other
preprocessing failure becomes InvalidArgumentError.  Note that the
source tests membership of the resolved URL in _phone_whitelist and
_phone_blacklist (lines 134 and 139), not in the url lists; the model
keeps that behaviour.  A node exception becomes OperationFailedError. -/
def check_url_safety (st : SafeCheckerState) (nodes : Nodes)
    (probe : String → ProbeResult) (input : String) :
    Except Failure (Bool × String) :=
  match preprocess_url probe input with
  | .error .urlNotFound => .ok (true, "URL is not accessible")
  | .error .urlTimeout => .ok (true, "URL is not accessible")
  | .error .invalidScheme => .ok (true, "URL is not accessible")
  | .error .invalidArgument => .error .invalidArgument
  | .error .requestError => .error .invalidArgument
  | .ok url =>
    if url ∈ st.phone_whitelist then
      .ok (true, "Valid url which listed on whitelist")
    else if url ∈ st.phone_blacklist then
      .ok (false, "Invalid url which listed on blacklist")
    else
      match nodes.node1 url with
      | .raised => .error .operationFailed
      | .verdict b1 =>
        match nodes.node2 url with
        | .raised => .error .operationFailed
        | .verdict b2 =>
          match nodes.node3 url with
          | .raised => .error .operationFailed
          | .verdict b3 => .ok (b1 && b2 && b3, url_node_report b1 b2 b3)

/-- SafeChecker.check_phone_safety (checker.py lines 183-229). -/
def check_phone_safety (st : SafeCheckerState) (nodes : Nodes)
    (input : String) : Except Failure (Bool × String) :=
  match normalize_phone_number input with
  | .error _ => .error .invalidArgument
  | .ok phone =>
    if phone ∈ st.phone_whitelist then
      .ok (true, "Valid phone number which listed on whitelist")
    else if phone ∈ st.phone_blacklist then
      .ok (false, "Invalid phone number which listed on blacklist")
    else
      match nodes.node1 phone with
      | .raised => .error .operationFailed
      | .verdict b1 =>
        match nodes.node2 phone with
        | .raised => .error .operationFailed
        | .verdict b2 =>
          match nodes.node3 phone with
          | .raised => .error .operationFailed
          | .verdict b3 => .ok (b1 && b2 && b3, phone_node_report b1 b2 b3)

deriving instance DecidableEq for Except

/-- Outcome of a WebDriverWait: the element appeared, or the wait timed
out (TimeoutException). -/
inductive WaitOutcome where
  | found
  | waitTimeout
deriving DecidableEq

/-- Internal node errors of the browser-driven phone checkers. -/
inductive NodeErr where
  | timeoutError
  | extractLevelFailure
  | otherError
deriving DecidableEq

/-- Environment of TheCallPhoneSafeChecker.is_safe: outcome of the wait
for the search input, and outcome of the wait for the report marker. -/
structure TheCallEnv where
  input_wait : WaitOutcome
  marker_wait : WaitOutcome

/-- TheCallPhoneSafeChecker.is_safe (phone.py lines 65-121), with the
second component recording whether driver.quit() was executed before
the call finished.  The wait for the report marker is wrapped in its
own try: presence of the marker gives the unsafe verdict, its
TimeoutException gives the safe verdict, and both paths then quit the
driver; a TimeoutException from the wait for the search input is only
caught by the outer handler, which re-raises without quitting. -/
def theCall_is_safe (env : TheCallEnv) : Except NodeErr Bool × Bool :=
  match env.input_wait with
  | .waitTimeout => (.error .timeoutError, false)
  | .found =>
    match env.marker_wait with
    | .found => (.ok false, true)
    | .waitTimeout => (.ok true, true)

/-- Outcome of one iteration body of the MissedCall retry loop: the wait
for the result element succeeded and a spam level was extracted, or
the nested sup element / level pattern was missing
(ExtractLevelFailureError), or some other exception was raised. -/
inductive AttemptOutcome where
  | level (n : Nat)
  | extractFail
  | otherError
deriving DecidableEq

/-- The retry loop of MissedCallPhoneSafeChecker.is_safe (phone.py lines
191-221), with _MAX_RETRIES = 3: while retry_count < 3, run the
attempt; a successful extraction sets is_safe from the spam level and
breaks; an ExtractLevelFailureError sleeps 3 seconds and increments
retry_count when retry_count < 3 and re-raises otherwise (the source
keeps that dead re-raise branch); any other exception re-raises
immediately.  Falling out of the loop returns the current is_safe. -/
def missedCall_loop (attempt : Nat → AttemptOutcome) (retry_count : Nat)
    (cur : Bool) : Except NodeErr Bool :=
  if _h : retry_count < 3 then
    match attempt retry_count with
    | .level n => .ok (if n > 0 then false else true)
    | .extractFail =>
      if retry_count < 3 then missedCall_loop attempt (retry_count + 1) cur
      else .error .extractLevelFailure
    | .otherError => .error .otherError
  else
    .ok cur
termination_by 3 - retry_count
decreasing_by omega

/-- Environment of MissedCallPhoneSafeChecker.is_safe: outcome of the
wait for the pnum input, and the per-attempt extraction outcomes. -/
structure MissedCallEnv where
  input_wait : WaitOutcome
  attempt : Nat → AttemptOutcome

/-- MissedCallPhoneSafeChecker.is_safe (phone.py lines 153-229), with the
second component recording whether driver.quit() was executed.
is_safe is initialized to False before the loop; driver.quit() runs
only after the loop completes without raising, so a raised loop error
propagates with the session still open. -/
def missedCall_is_safe (env : MissedCallEnv) : Except NodeErr Bool × Bool :=
  match env.input_wait with
  | .waitTimeout => (.error .timeoutError, false)
  | .found =>
    match missedCall_loop env.attempt 0 false with
    | .ok b => (.ok b, true)
    | .error e => (.error e, false)

/-- Splitting a character list at a separator character; models viewing
a joined report as its list of lines. -/
def splitChar (sep : Char) (cs : List Char) : List (List Char) :=
  match cs with
  | [] => [[]]
  | d :: rest =>
    let r := splitChar sep rest
    if d = sep then [] :: r
    else
      match r with
      | [] => [[d]]
      | l :: ls => (d :: l) :: ls

/-- The lines of a report string. -/
def linesOf (s : String) : List String := (splitChar '\n' s.data).map String.mk

theorem dropWhile_eq_self_of_all {p : Char → Bool} {l : List Char}
    (h : ∀ c ∈ l, p c = false) : l.dropWhile p = l := by
  cases l with
  | nil => rfl
  | cons a t =>
    rw [List.dropWhile_cons, if_neg]
    simp [h a (by simp)]

theorem isWhitespace_eq_false_of_isDigit {c : Char} (h : c.isDigit = true) :
    c.isWhitespace = false := by
  by_contra h'
  have hw : c.isWhitespace = true := by
    cases hc : c.isWhitespace
    · exact absurd hc h'
    · rfl
  simp only [Char.isWhitespace, Bool.or_eq_true, decide_eq_true_eq] at hw
  rcases hw with ((h1 | h1) | h1) | h1 <;> subst h1 <;> exact absurd h (by decide)

theorem bne_eq_true_of_isDigit {d c : Char} (hd : d.isDigit = true)
    (hc : c.isDigit = false) : (d != c) = true := by
  rw [bne_iff_ne]
  intro he
  subst he
  rw [hd] at hc
  exact Bool.noConfusion hc

theorem normalize_ok_isDigit {s out : String}
    (h : normalize_phone_number s = .ok out) : ∀ c ∈ out.data, c.isDigit = true := by
  unfold normalize_phone_number at h
  split at h
  case isTrue hcond =>
    injection h with hout
    intro c hc
    rw [← hout] at hc
    unfold removeAll at hc
    simp only [String.data] at hc
    rw [List.mem_filter] at hc
    obtain ⟨hc1, hcs⟩ := hc
    rw [List.mem_filter] at hc1
    obtain ⟨hmem, hch⟩ := hc1
    have := List.all_eq_true.mp hcond c hmem
    simp only [Bool.or_eq_true, beq_iff_eq] at this
    rcases this with (hd | he) | he
    · exact hd
    · subst he
      rw [bne_self_eq_false] at hch
      exact absurd hch (by decide)
    · subst he
      rw [bne_self_eq_false] at hcs
      exact absurd hcs (by decide)
  case isFalse => exact Except.noConfusion h

theorem pyStrip_of_digits {s : String} (h : ∀ c ∈ s.data, c.isDigit = true) :
    pyStrip s = s := by
  unfold pyStrip
  rw [dropWhile_eq_self_of_all (fun c hc => isWhitespace_eq_false_of_isDigit (h c hc))]
  rw [dropWhile_eq_self_of_all
    (fun c hc => isWhitespace_eq_false_of_isDigit (h c (List.mem_reverse.mp hc)))]
  rw [List.reverse_reverse]

theorem removeAll_eq_self {c : Char} {s : String}
    (h : ∀ d ∈ s.data, (d != c) = true) : removeAll c s = s := by
  unfold removeAll
  rw [List.filter_eq_self.mpr h]

/-- C9: phone normalization is idempotent — normalizing a successful
output succeeds and returns that output unchanged. -/
theorem c9_normalize_idempotent (s out : String)
    (h : normalize_phone_number s = Except.ok out) :
    normalize_phone_number out = Except.ok out := by
  have hd := normalize_ok_isDigit h
  have hstrip : pyStrip out = out := pyStrip_of_digits hd
  unfold normalize_phone_number
  rw [hstrip]
  rw [if_pos (List.all_eq_true.mpr (fun c hc => by simp [hd c hc]))]
  rw [removeAll_eq_self (fun d hd' => bne_eq_true_of_isDigit (hd d hd') (by decide))]
  rw [removeAll_eq_self (fun d hd' => bne_eq_true_of_isDigit (hd d hd') (by decide))]

theorem c9_witness : normalize_phone_number "01092563688" = Except.ok "01092563688" :=
  c9_normalize_idempotent "010 9256 3688" "01092563688" (by decide)

/-- C6 counterexample: the trimmed input "-" contains no character
outside the digit/hyphen/space set, yet normalization returns the
empty string, which is not a non-empty all-digit canonical subject. -/
theorem c6_counterexample :
    normalize_phone_number "-" = Except.ok "" ∧ ("" : String).data = [] := by
  exact ⟨rfl, rfl⟩

/-- C6 (amended): phone normalization fails with InvalidArgument exactly
when the whitespace-trimmed input contains a character outside
digit/hyphen/space, and otherwise returns a possibly-empty string in
which every character is a decimal digit. -/
theorem c6_normalize_characterization (s : String) :
    (normalize_phone_number s = Except.error Failure.invalidArgument ↔
      ∃ c ∈ (pyStrip s).data, ¬(c.isDigit = true ∨ c = '-' ∨ c = ' ')) ∧
    (∀ out, normalize_phone_number s = Except.ok out → ∀ c ∈ out.data, c.isDigit = true) := by
  constructor
  · unfold normalize_phone_number
    split
    case isTrue hcond =>
      constructor
      · intro h
        exact Except.noConfusion h
      · rintro ⟨c, hc, hnc⟩
        have := List.all_eq_true.mp hcond c hc
        simp only [Bool.or_eq_true, beq_iff_eq] at this
        exact absurd (by tauto) hnc
    case isFalse hcond =>
      constructor
      · intro _
        rw [List.all_eq_true] at hcond
        push_neg at hcond
        obtain ⟨c, hc, hnc⟩ := hcond
        refine ⟨c, hc, fun hp => hnc ?_⟩
        simp only [Bool.or_eq_true, beq_iff_eq]
        tauto
      · intro _
        rfl
  · exact fun out h => normalize_ok_isDigit h

theorem c6_witness :
    normalize_phone_number "010-9256-3688" = Except.ok "01092563688" ∧
    (∀ c ∈ ("01092563688" : String).data, c.isDigit = true) :=
  ⟨by decide, (c6_normalize_characterization "010-9256-3688").2 "01092563688" (by decide)⟩

/-- C5: when the normalized subject is in no override list and all 3
nodes return verdicts, the result is the strict AND of the verdicts
and the report has exactly the 3 per-node lines in fixed registry
order, for both the phone handler and the url handler. -/
theorem c5_strict_and_consensus (st : SafeCheckerState) (nodes : Nodes) :
    (∀ input phone b1 b2 b3,
      normalize_phone_number input = Except.ok phone →
      phone ∉ st.phone_whitelist → phone ∉ st.phone_blacklist →
      nodes.node1 phone = .verdict b1 → nodes.node2 phone = .verdict b2 →
      nodes.node3 phone = .verdict b3 →
      check_phone_safety st nodes input =
        Except.ok (b1 && b2 && b3, phone_node_report b1 b2 b3) ∧
      linesOf (phone_node_report b1 b2 b3) =
        ["- Node_1(OneOneFourPhoneSafeChecker): " ++ (if b1 then "ok" else "suspicious"),
         "- Node_2(TheCallPhoneSafeChecker): " ++ (if b2 then "ok" else "suspicious"),
         "- Node_3(MissedCallPhoneSafeChecker): " ++ (if b3 then "ok" else "suspicious")]) ∧
    (∀ input url b1 b2 b3 (probe : String → ProbeResult),
      preprocess_url probe input = Except.ok url →
      url ∉ st.phone_whitelist → url ∉ st.phone_blacklist →
      url ∉ st.url_whitelist → url ∉ st.url_blacklist →
      nodes.node1 url = .verdict b1 → nodes.node2 url = .verdict b2 →
      nodes.node3 url = .verdict b3 →
      check_url_safety st nodes probe input =
        Except.ok (b1 && b2 && b3, url_node_report b1 b2 b3) ∧
      linesOf (url_node_report b1 b2 b3) =
        ["- Node_1(PhishtankURLSafeChecker): " ++ (if b1 then "ok" else "suspicious"),
         "- Node_2(WhoXYURLSafeChecker): " ++ (if b2 then "ok" else "suspicious"),
         "- Node_3(KISAURLSafeChecker): " ++ (if b3 then "ok" else "suspicious")]) := by
  constructor
  · intro input phone b1 b2 b3 hn hw hb h1 h2 h3
    constructor
    · unfold check_phone_safety
      rw [hn]
      simp only [if_neg hw, if_neg hb]
      rw [h1, h2, h3]
    · cases b1 <;> cases b2 <;> cases b3 <;> decide
  · intro input url b1 b2 b3 probe hp hw hb _ _ h1 h2 h3
    constructor
    · unfold check_url_safety
      rw [hp]
      simp only [if_neg hw, if_neg hb]
      rw [h1, h2, h3]
    · cases b1 <;> cases b2 <;> cases b3 <;> decide

/-- All three nodes vote ok. -/
def nodesAllOk : Nodes :=
  ⟨fun _ => .verdict true, fun _ => .verdict true, fun _ => .verdict true⟩

/-- Node_2 votes suspicious, the others ok. -/
def nodesSecondSuspicious : Nodes :=
  ⟨fun _ => .verdict true, fun _ => .verdict false, fun _ => .verdict true⟩

theorem c5_witness :
    check_phone_safety initState nodesSecondSuspicious "010-1234-5678" =
      Except.ok (true && false && true, phone_node_report true false true) ∧
    linesOf (phone_node_report true false true) =
      ["- Node_1(OneOneFourPhoneSafeChecker): " ++ (if true then "ok" else "suspicious"),
       "- Node_2(TheCallPhoneSafeChecker): " ++ (if false then "ok" else "suspicious"),
       "- Node_3(MissedCallPhoneSafeChecker): " ++ (if true then "ok" else "suspicious")] :=
  (c5_strict_and_consensus initState nodesSecondSuspicious).1 "010-1234-5678" "01012345678"
    true false true (by decide) (by decide) (by decide) rfl rfl rfl

/-- C8: if the node reached during sequential consensus raises, the whole
evaluation fails with OperationFailed and no Check Result is produced,
for both handlers. -/
theorem c8_node_error_aborts (st : SafeCheckerState) (nodes : Nodes) :
    (∀ input phone,
      normalize_phone_number input = Except.ok phone →
      phone ∉ st.phone_whitelist → phone ∉ st.phone_blacklist →
      (nodes.node1 phone = .raised ∨ nodes.node2 phone = .raised ∨
        nodes.node3 phone = .raised) →
      check_phone_safety st nodes input = Except.error Failure.operationFailed) ∧
    (∀ input url (probe : String → ProbeResult),
      preprocess_url probe input = Except.ok url →
      url ∉ st.phone_whitelist → url ∉ st.phone_blacklist →
      url ∉ st.url_whitelist → url ∉ st.url_blacklist →
      (nodes.node1 url = .raised ∨ nodes.node2 url = .raised ∨
        nodes.node3 url = .raised) →
      check_url_safety st nodes probe input = Except.error Failure.operationFailed) := by
  constructor
  · intro input phone hn hw hb hdis
    unfold check_phone_safety
    rw [hn]
    simp only [if_neg hw, if_neg hb]
    rcases hdis with h | h | h
    · rw [h]
    · cases h1 : nodes.node1 phone with
      | raised => rfl
      | verdict b1 => rw [h]
    · cases h1 : nodes.node1 phone with
      | raised => rfl
      | verdict b1 =>
        cases h2 : nodes.node2 phone with
        | raised => rfl
        | verdict b2 => rw [h]
  · intro input url probe hp hw hb _ _ hdis
    unfold check_url_safety
    rw [hp]
    simp only [if_neg hw, if_neg hb]
    rcases hdis with h | h | h
    · rw [h]
    · cases h1 : nodes.node1 url with
      | raised => rfl
      | verdict b1 => rw [h]
    · cases h1 : nodes.node1 url with
      | raised => rfl
      | verdict b1 =>
        cases h2 : nodes.node2 url with
        | raised => rfl
        | verdict b2 => rw [h]

/-- Node_2 raises an internal error, the others vote ok. -/
def nodesSecondRaises : Nodes :=
  ⟨fun _ => .verdict true, fun _ => .raised, fun _ => .verdict true⟩

theorem c8_witness :
    check_phone_safety initState nodesSecondRaises "010-2222-3333" =
      Except.error Failure.operationFailed :=
  (c8_node_error_aborts initState nodesSecondRaises).1 "010-2222-3333" "01022223333"
    (by decide) (by decide) (by decide) (Or.inr (Or.inl rfl))

/-- C7: for grammar-valid URL input, if scheme resolution finds no
usable scheme, or a probe times out, or the expansion probe answers
404, check_url_safety returns the terminal safe result with report
"URL is not accessible" — for every override-list state and every node
environment, so no list and no node is consulted. -/
theorem c7_inaccessible_is_terminal_safe (st : SafeCheckerState) (nodes : Nodes)
    (probe : String → ProbeResult) (input : String)
    (hvalid : is_url (pyStrip input) = true)
    (hscen :
      get_url_with_scheme probe (pyStrip input) = Except.error UrlPreErr.invalidScheme ∨
      get_url_with_scheme probe (pyStrip input) = Except.error UrlPreErr.urlTimeout ∨
      (∃ u, get_url_with_scheme probe (pyStrip input) = Except.ok u ∧
        probe u = ProbeResult.timeout) ∨
      (∃ u f, get_url_with_scheme probe (pyStrip input) = Except.ok u ∧
        probe u = ProbeResult.response 404 f)) :
    check_url_safety st nodes probe input = Except.ok (true, "URL is not accessible") := by
  unfold check_url_safety
  rcases hscen with h | h | ⟨u, hg, hpr⟩ | ⟨u, f, hg, hpr⟩
  · have hpre : preprocess_url probe input = Except.error UrlPreErr.invalidScheme := by
      unfold preprocess_url
      rw [if_pos hvalid, h]
    rw [hpre]
  · have hpre : preprocess_url probe input = Except.error UrlPreErr.urlTimeout := by
      unfold preprocess_url
      rw [if_pos hvalid, h]
    rw [hpre]
  · have hpre : preprocess_url probe input = Except.error UrlPreErr.urlTimeout := by
      unfold preprocess_url expand_short_url
      rw [if_pos hvalid]
      simp only [hg, hpr]
    rw [hpre]
  · have hpre : preprocess_url probe input = Except.error UrlPreErr.urlNotFound := by
      unfold preprocess_url expand_short_url
      rw [if_pos hvalid]
      simp only [hg, hpr]
      simp
    rw [hpre]

/-- A probe environment in which every request fails with a non-timeout
network error. -/
def probeAllDown : String → ProbeResult := fun _ => .connError

theorem c7_witness :
    check_url_safety initState nodesAllOk probeAllDown "dead.example" =
      Except.ok (true, "URL is not accessible") :=
  c7_inaccessible_is_terminal_safe initState nodesAllOk probeAllDown "dead.example"
    (by decide) (Or.inl (by decide))

/-- A probe environment in which the https variant of onlyhttp.example
times out while every other request succeeds. -/
def probeHttpsTimesOut : String → ProbeResult := fun u =>
  if u = "https://onlyhttp.example" then .timeout else .response 200 u

/-- C3 counterexample: the https probe fails with a timeout failure and
the http probe would succeed, yet scheme resolution raises
URLTimeoutError instead of attempting and adopting the http variant. -/
theorem c3_counterexample :
    probeHttpsTimesOut "https://onlyhttp.example" = ProbeResult.timeout ∧
    probeHttpsTimesOut "http://onlyhttp.example" =
      ProbeResult.response 200 "http://onlyhttp.example" ∧
    get_url_with_scheme probeHttpsTimesOut "onlyhttp.example" =
      Except.error UrlPreErr.urlTimeout ∧
    get_url_with_scheme probeHttpsTimesOut "onlyhttp.example" ≠
      Except.ok "http://onlyhttp.example" := by
  refine ⟨rfl, rfl, rfl, ?_⟩
  decide

/-- C3 (amended): the http variant is attempted exactly when the https
probe fails with a non-timeout network failure, and then a successful
http probe makes the subject adopt the http scheme; an https probe
timeout aborts resolution with URLTimeoutError without attempting
http. -/
theorem c3_http_fallback (probe : String → ProbeResult) (url : String) :
    (probe (ensure_scheme url "https") = ProbeResult.connError →
      ∀ s f, probe (ensure_scheme url "http") = ProbeResult.response s f →
        get_url_with_scheme probe url = Except.ok (ensure_scheme url "http")) ∧
    (probe (ensure_scheme url "https") = ProbeResult.timeout →
      get_url_with_scheme probe url = Except.error UrlPreErr.urlTimeout) := by
  constructor
  · intro hc s f hh
    unfold get_url_with_scheme
    rw [hc, hh]
  · intro ht
    unfold get_url_with_scheme
    rw [ht]

/-- A probe environment in which the https variant of onlyhttp.example
fails with a non-timeout network error while every other request
succeeds. -/
def probeHttpsDown : String → ProbeResult := fun u =>
  if u = "https://onlyhttp.example" then .connError else .response 200 u

theorem c3_witness :
    get_url_with_scheme probeHttpsDown "onlyhttp.example" =
      Except.ok "http://onlyhttp.example" := by
  have h := (c3_http_fallback probeHttpsDown "onlyhttp.example").1 (by decide) 200
    "http://onlyhttp.example" (by decide)
  have he : ensure_scheme "onlyhttp.example" "http" = "http://onlyhttp.example" := by decide
  rw [he] at h
  exact h

/-- A probe environment in which r3born.cc is reachable only over plain
http: the https variant fails with a network error, everything else
answers 200. -/
def probeR3born : String → ProbeResult := fun u =>
  if u = "https://r3born.cc" then .connError else .response 200 u

/-- C1: evaluation at the failing input.  "http://r3born.cc" is the
startup URL blacklist entry, yet check_url_safety on "r3born.cc"
(which canonicalizes to exactly that blacklisted URL) reaches node
consensus and, with all nodes voting safe, returns safe=true with the
node report — not the blacklist verdict — because lines 134/139 of
checker.py test the phone lists instead of the url lists. -/
theorem c1_url_blacklist_not_consulted :
    "http://r3born.cc" ∈ initState.url_blacklist ∧
    check_url_safety initState nodesAllOk probeR3born "r3born.cc" =
      Except.ok (true, url_node_report true true true) ∧
    check_url_safety initState nodesAllOk probeR3born "r3born.cc" ≠
      Except.ok (false, "Invalid url which listed on blacklist") := by
  refine ⟨by decide, by decide, by decide⟩

/-- The startup lists with r3born.cc placed on both URL override lists. -/
def stBothLists : SafeCheckerState :=
  { initState with
    url_whitelist := ["http://r3born.cc"]
    url_blacklist := ["http://r3born.cc"] }

/-- Node_1 votes suspicious, the others ok. -/
def nodesFirstSuspicious : Nodes :=
  ⟨fun _ => .verdict false, fun _ => .verdict true, fun _ => .verdict true⟩

/-- C10: evaluation at the failing input.  With "http://r3born.cc" a
member of both the URL whitelist and the URL blacklist, check_url_safety
neither short-circuits on the whitelist nor on the blacklist: it runs
node consensus and returns safe=false with the node report, because the
membership tests of checker.py lines 134/139 consult the phone lists.
(For phone subjects the whitelist test does precede the blacklist test
on the phone lists, as the claim describes.) -/
theorem c10_url_whitelist_precedence_not_implemented :
    "http://r3born.cc" ∈ stBothLists.url_whitelist ∧
    "http://r3born.cc" ∈ stBothLists.url_blacklist ∧
    check_url_safety stBothLists nodesFirstSuspicious probeR3born "r3born.cc" =
      Except.ok (false, url_node_report false true true) ∧
    check_url_safety stBothLists nodesFirstSuspicious probeR3born "r3born.cc" ≠
      Except.ok (true, "Valid url which listed on whitelist") := by
  refine ⟨by decide, by decide, by decide, by decide⟩

/-- C2: evaluation at the failing input.  When the spam-level extraction
fails on all 3 bounded attempts, MissedCallPhoneSafeChecker.is_safe
does not propagate the extraction failure: the while loop exhausts its
guard (the re-raise branch is unreachable, since the loop guard already
ensures retry_count < _MAX_RETRIES), the driver is quit, and the
initialized verdict False is returned as a normal unsafe verdict, so
the enclosing consensus receives a verdict instead of aborting. -/
theorem c2_retry_exhaustion_returns_verdict :
    missedCall_is_safe ⟨.found, fun _ => .extractFail⟩ = (Except.ok false, true) := by
  simp [missedCall_is_safe, missedCall_loop]

/-- C4: evaluation at failing inputs.  When an exception is raised after
the browser session is created — here, the wait for the search input
timing out, or a non-extraction error inside the MissedCall retry
loop — is_safe propagates the error with the second component false:
driver.quit() was never executed, leaking the session. -/
theorem c4_session_leak_on_error :
    theCall_is_safe ⟨.waitTimeout, .found⟩ = (Except.error NodeErr.timeoutError, false) ∧
    missedCall_is_safe ⟨.waitTimeout, fun _ => .level 0⟩ =
      (Except.error NodeErr.timeoutError, false) ∧
    missedCall_is_safe ⟨.found, fun _ => .otherError⟩ =
      (Except.error NodeErr.otherError, false) := by
  refine ⟨by decide, by decide, ?_⟩
  simp [missedCall_is_safe, missedCall_loop]
